import Mathlib

/-!
Shallow embedding of the TinyHook subsystem of `linux-user/tinyhook.c`
(QEMU linux-user Python-based syscall hooking), together with theorems
checking the natural-language specification against it.

Modelling conventions:
* Python values visible to the bridge are modelled by the inductive `PyVal`.
  A Python callable is modelled as a Lean function from its positional
  integer arguments to `Option PyVal`; `Option.none` models the callback
  raising an uncaught exception.
* `abi_long` is modelled as `Int` (an opaque signed machine word; the
  claims under check do not depend on wrap-around at the word size).
* The global state of tinyhook.c (`g_tinyhook_enabled`,
  `g_pre_syscall_hooks`, `g_post_syscall_hooks`, `g_module`, and whether
  `Py_Initialize` has run) is gathered into `TinyHookState` and threaded
  explicitly.
* Diagnostics printed with `fprintf(stderr, ...)` for hook failures are
  modelled as a log of the syscall numbers reported.
* Allocation failure of a small `PyLong` key (`PyLong_FromLong`) is not
  modelled; it is an out-of-memory path with no bearing on the claims.
-/

/-- A Python value as seen by the tinyhook C layer: the shapes the result
parser distinguishes (`PyDict_Check`, `PyTuple_Check`, `PyLong_Check`,
`PyCallable_Check`) plus representatives of every other shape. -/
inductive PyVal where
  | int (n : Int)
  | str (s : String)
  | tuple (xs : List PyVal)
  | pylist (xs : List PyVal)
  | dict (entries : List (String × PyVal))
  | callable (f : List Int → Option PyVal)
  | pynone

/-- `PyCallable_Check`. -/
def PyVal.isCallable : PyVal → Bool
  | .callable _ => true
  | _ => false

/-- `PyLong_Check`. -/
def PyVal.isInt : PyVal → Bool
  | .int _ => true
  | _ => false

/-- Calling a Python object with positional integer arguments
(`PyObject_CallFunction`); `Option.none` is a raised exception (calling a
non-callable raises `TypeError`). -/
def pyCall (v : PyVal) (args : List Int) : Option PyVal :=
  match v with
  | .callable f => f args
  | _ => Option.none

/-- `PyDict_GetItemString` on a string-keyed dict (keys of a Python dict
are unique; first match). -/
def dlookup (entries : List (String × PyVal)) (key : String) : Option PyVal :=
  match entries with
  | [] => Option.none
  | (k, v) :: rest => if k = key then some v else dlookup rest key

/-- A hook table: `dict: syscall_num -> callable`
(`g_pre_syscall_hooks` / `g_post_syscall_hooks`). -/
def HookTable := List (Int × PyVal)

/-- `PyDict_GetItem` with an integer key. -/
def tableGet (t : HookTable) (num : Int) : Option PyVal :=
  match t with
  | [] => Option.none
  | (k, v) :: rest => if k = num then some v else tableGet rest num

/-- `PyDict_SetItem`: replace the entry for the key if present, otherwise
append a new entry. -/
def dictSet (t : HookTable) (num : Int) (cb : PyVal) : HookTable :=
  match t with
  | [] => [(num, cb)]
  | (k, v) :: rest =>
      if k = num then (num, cb) :: rest else (k, v) :: dictSet rest num cb

/-- Number of entries a table holds for a key. -/
def keyCount (t : HookTable) (num : Int) : Nat :=
  match t with
  | [] => 0
  | (k, _) :: rest => (if k = num then 1 else 0) + keyCount rest num

/-- `TinyHookAction` from tinyhook.h. -/
inductive TinyHookAction where
  | continueAction
  | skip
deriving DecidableEq

/-- `TinyHookResult` from tinyhook.h: action, the eight (possibly
modified) arguments, and the return value used when action is SKIP. -/
structure TinyHookResult where
  action : TinyHookAction
  args : List Int
  ret : Int
deriving DecidableEq

/-- The tinyhook globals: `g_tinyhook_enabled`, the two hook dicts
(`Option.none` models a NULL dict pointer), `g_module`, and whether the
Python runtime is initialized. -/
structure TinyHookState where
  enabled : Bool
  preHooks : Option HookTable
  postHooks : Option HookTable
  module : Option Unit
  pyInitialized : Bool

/-- `tinyhook_enabled`. -/
def tinyhook_enabled (st : TinyHookState) : Bool :=
  st.enabled

/-- Errors raised by the script-facing API, named after the spec's
taxonomy: `invalidArgument` covers `ValueError`/`TypeError`,
`addressError` covers `MemoryError`. -/
inductive PyErr where
  | invalidArgument
  | addressError
deriving DecidableEq

/-- `py_register_pre_hook` acting on the pre-hook table: fails with
`TypeError` (InvalidArgument) unless the callback is callable, otherwise
inserts/replaces via `PyDict_SetItem`. -/
def py_register_pre_hook (t : HookTable) (num : Int) (cb : PyVal) :
    Except PyErr HookTable :=
  if cb.isCallable then .ok (dictSet t num cb) else .error .invalidArgument

/-- `py_register_post_hook` acting on the post-hook table; same body as
the pre variant. -/
def py_register_post_hook (t : HookTable) (num : Int) (cb : PyVal) :
    Except PyErr HookTable :=
  if cb.isCallable then .ok (dictSet t num cb) else .error .invalidArgument

/-- The default-initialized `TinyHookResult` written by
`tinyhook_pre_syscall` before the hook runs: CONTINUE, the original eight
arguments, ret 0. -/
def defaultPreResult (a1 a2 a3 a4 a5 a6 a7 a8 : Int) : TinyHookResult :=
  { action := .continueAction
    args := [a1, a2, a3, a4, a5, a6, a7, a8]
    ret := 0 }

/-- The `"action"` field of the parse in `tinyhook_pre_syscall`:
`PyLong_Check` and value == SKIP (1) sets SKIP; anything else leaves the
action. -/
def parseActionField (r : TinyHookResult) (d : List (String × PyVal)) :
    TinyHookResult :=
  match dlookup d "action" with
  | some (.int a) => if a = 1 then { r with action := .skip } else r
  | _ => r

/-- One element of the `"args"` loop: `PyLong_Check(item)` replaces
`result->args[i]`, any other element leaves it. -/
def pickArg (orig : Int) (item : PyVal) : Int :=
  match item with
  | .int n => n
  | _ => orig

/-- The `"args"` field of the parse: only a tuple of size exactly 8 is
walked, and each integer element overwrites the corresponding slot. -/
def parseArgsField (r : TinyHookResult) (d : List (String × PyVal)) :
    TinyHookResult :=
  match dlookup d "args" with
  | some (.tuple xs) =>
      if xs.length = 8 then { r with args := List.zipWith pickArg r.args xs }
      else r
  | _ => r

/-- The `"ret"` field of the parse: an integer replaces `result->ret`. -/
def parseRetField (r : TinyHookResult) (d : List (String × PyVal)) :
    TinyHookResult :=
  match dlookup d "ret" with
  | some (.int n) => { r with ret := n }
  | _ => r

/-- The result-parsing block of `tinyhook_pre_syscall`: a dict is decoded
field by field (action, args, ret, in source order); any other shape
leaves every default. -/
def parseHookResult (r : TinyHookResult) (v : PyVal) : TinyHookResult :=
  match v with
  | .dict d => parseRetField (parseArgsField (parseActionField r d) d) d
  | _ => r

/-- Output of `tinyhook_pre_syscall`: the returned bool, the
`TinyHookResult` out-parameter (`Option.none` when the early guard
returns without writing it), and the logged diagnostics (syscall numbers
of failed hook invocations). -/
structure PreOut where
  fired : Bool
  result : Option TinyHookResult
  log : List Int
deriving DecidableEq

/-- `tinyhook_pre_syscall`. -/
def tinyhook_pre_syscall (st : TinyHookState) (num : Int)
    (a1 a2 a3 a4 a5 a6 a7 a8 : Int) : PreOut :=
  match st.enabled, st.preHooks with
  | false, _ => ⟨false, Option.none, []⟩
  | true, Option.none => ⟨false, Option.none, []⟩
  | true, some t =>
      let r0 := defaultPreResult a1 a2 a3 a4 a5 a6 a7 a8
      match tableGet t num with
      | Option.none => ⟨false, some r0, []⟩
      | some cb =>
          match pyCall cb [num, a1, a2, a3, a4, a5, a6, a7, a8] with
          | Option.none => ⟨false, some r0, [num]⟩
          | some v => ⟨true, some (parseHookResult r0 v), []⟩

/-- Output of `tinyhook_post_syscall`: the returned value and the logged
diagnostics. -/
structure PostOut where
  ret : Int
  log : List Int
deriving DecidableEq

/-- `tinyhook_post_syscall`. -/
def tinyhook_post_syscall (st : TinyHookState) (num : Int) (ret : Int)
    (a1 a2 a3 a4 a5 a6 a7 a8 : Int) : PostOut :=
  match st.enabled, st.postHooks with
  | false, _ => ⟨ret, []⟩
  | true, Option.none => ⟨ret, []⟩
  | true, some t =>
      match tableGet t num with
      | Option.none => ⟨ret, []⟩
      | some cb =>
          match pyCall cb [num, ret, a1, a2, a3, a4, a5, a6, a7, a8] with
          | Option.none => ⟨ret, [num]⟩
          | some v =>
              match v with
              | .int n => ⟨n, []⟩
              | _ => ⟨ret, []⟩

/-- The guest address space as seen through the collaborators of the
memory bridge: `mapped` is whether `g2h_untagged` yields a host pointer
for an address, `byte` is the host-visible content at the translated
address (total: reading past a mapping is the unchecked-overrun caveat),
and `bound` bounds the terminator scan of `target_strlen`. -/
structure GuestMem where
  mapped : Nat → Bool
  byte : Nat → Nat
  bound : Nat

/-- `py_read_memory`: rejects `size <= 0` with `ValueError`
(InvalidArgument), fails with `MemoryError` (AddressError) when the start
address does not translate, otherwise copies exactly `size` bytes from
host-visible memory (`PyBytes_FromStringAndSize`). -/
def py_read_memory (m : GuestMem) (addr : Nat) (size : Int) :
    Except PyErr (List Nat) :=
  if size ≤ 0 then .error .invalidArgument
  else if m.mapped addr then
    .ok ((List.range size.toNat).map fun i => m.byte (addr + i))
  else .error .addressError

/-- The `memcpy` of `py_write_memory`: store the bytes at consecutive
addresses. -/
def writeBytes (m : GuestMem) (addr : Nat) : List Nat → GuestMem
  | [] => m
  | b :: rest =>
      writeBytes
        { m with byte := fun x => if x = addr then b else m.byte x }
        (addr + 1) rest

/-- `py_write_memory`: fails with `MemoryError` (AddressError) when the
start address does not translate, otherwise copies `data.length` bytes
verbatim; there is no size validation. -/
def py_write_memory (m : GuestMem) (addr : Nat) (data : List Nat) :
    Except PyErr GuestMem :=
  if m.mapped addr then .ok (writeBytes m addr data)
  else .error .addressError

/-- Bounded terminator scan: length to the first 0 byte, or `Option.none`
when an address along the way is unmapped or the bound runs out. -/
def scanLen (m : GuestMem) (addr : Nat) : Nat → Option Nat
  | 0 => Option.none
  | fuel + 1 =>
      if m.mapped addr then
        if m.byte addr = 0 then some 0
        else (scanLen m (addr + 1) fuel).map (· + 1)
      else Option.none

/-- Modelled from the spec: `target_strlen`, the bounded terminator scan
supplied by the address-space collaborator, is not part of the sources
under verification; per the spec it determines the string length up to
the terminator and signals failure (a negative length in C) when the
scan is invalid. -/
def target_strlen (m : GuestMem) (addr : Nat) : Option Nat :=
  scanLen m addr m.bound

/-- The text of `PyUnicode_FromStringAndSize(host_ptr, len)`: exactly
`len` bytes, terminator excluded, decoded one character per byte. -/
def decodeString (m : GuestMem) (addr : Nat) (len : Nat) : String :=
  String.mk ((List.range len).map fun i => Char.ofNat (m.byte (addr + i)))

/-- `py_read_string`: fails with `MemoryError` (AddressError) when the
start address does not translate or `target_strlen` fails, otherwise
returns the decoded text of the discovered length. -/
def py_read_string (m : GuestMem) (addr : Nat) : Except PyErr String :=
  if m.mapped addr then
    match target_strlen m addr with
    | Option.none => .error .addressError
    | some len => .ok (decodeString m addr len)
  else .error .addressError

/-- `tinyhook_shutdown`: guarded by `g_tinyhook_enabled`; when enabled it
releases both hook dicts and the module reference, clears the globals,
and finalizes the Python runtime if it was initialized; otherwise it does
nothing at all. -/
def tinyhook_shutdown (st : TinyHookState) : TinyHookState :=
  if st.enabled then
    { enabled := false
      preHooks := Option.none
      postHooks := Option.none
      module := Option.none
      pyInitialized := false }
  else st

/-- Which steps of `tinyhook_init` succeed in a given run: registering
the inittab entry, `Py_Initialize`, the two `PyDict_New` allocations, the
module import, `fopen` of the script, and `PyRun_FileEx` of the script. -/
structure InitEnv where
  inittabOk : Bool
  runtimeStartOk : Bool
  preDictOk : Bool
  postDictOk : Bool
  importOk : Bool
  openOk : Bool
  runScriptOk : Bool

/-- The all-clear state before `tinyhook_init` runs. -/
def initialState : TinyHookState :=
  { enabled := false
    preHooks := Option.none
    postHooks := Option.none
    module := Option.none
    pyInitialized := false }

/-- `tinyhook_init`: returns the C result (0 success, -1 failure)
together with the global state it leaves behind. Each failure path
returns -1; from dict allocation onward it calls `tinyhook_shutdown`
before returning, exactly as the source does. -/
def tinyhook_init (env : InitEnv) : Int × TinyHookState :=
  if !env.inittabOk then (-1, initialState)
  else
    let st1 := { initialState with pyInitialized := env.runtimeStartOk }
    if !env.runtimeStartOk then (-1, st1)
    else
      let st2 := { st1 with
                   preHooks := if env.preDictOk then some [] else Option.none
                   postHooks := if env.postDictOk then some [] else Option.none }
      if !env.preDictOk || !env.postDictOk then (-1, tinyhook_shutdown st2)
      else
        let st3 := { st2 with
                     module := if env.importOk then some () else Option.none }
        if !env.importOk then (-1, tinyhook_shutdown st3)
        else if !env.openOk then (-1, tinyhook_shutdown st3)
        else if !env.runScriptOk then (-1, tinyhook_shutdown st3)
        else (0, { st3 with enabled := true })

/-! ## Helper lemmas -/

/-- The `"action"` field never touches the argument slots. -/
theorem parseActionField_args (r : TinyHookResult) (d : List (String × PyVal)) :
    (parseActionField r d).args = r.args := by
  unfold parseActionField
  split
  · split <;> rfl
  · rfl

/-- The `"ret"` field never touches the argument slots. -/
theorem parseRetField_args (r : TinyHookResult) (d : List (String × PyVal)) :
    (parseRetField r d).args = r.args := by
  unfold parseRetField
  split <;> rfl

/-- The `"action"` field never touches `ret`. -/
theorem parseActionField_ret (r : TinyHookResult) (d : List (String × PyVal)) :
    (parseActionField r d).ret = r.ret := by
  unfold parseActionField
  split
  · split <;> rfl
  · rfl

/-- The `"args"` field never touches `ret` or the action. -/
theorem parseArgsField_ret (r : TinyHookResult) (d : List (String × PyVal)) :
    (parseArgsField r d).ret = r.ret ∧ (parseArgsField r d).action = r.action := by
  unfold parseArgsField
  split
  · split <;> exact ⟨rfl, rfl⟩
  · exact ⟨rfl, rfl⟩

/-- Whether the `"args"` field of a returned dict takes effect at all:
present, a tuple, and of length exactly 8. -/
def argsTakesEffect (d : List (String × PyVal)) : Bool :=
  match dlookup d "args" with
  | some (.tuple xs) => xs.length == 8
  | _ => false

/-- An effective `"args"` tuple rewrites the slots element by element. -/
theorem parseArgsField_effective (r : TinyHookResult)
    (d : List (String × PyVal)) (xs : List PyVal)
    (h : dlookup d "args" = some (.tuple xs)) (h8 : xs.length = 8) :
    (parseArgsField r d).args = List.zipWith pickArg r.args xs := by
  simp [parseArgsField, h, h8]

/-- An ineffective `"args"` field leaves the argument slots alone. -/
theorem parseArgsField_ineffective (r : TinyHookResult)
    (d : List (String × PyVal)) (h : argsTakesEffect d = false) :
    (parseArgsField r d).args = r.args := by
  unfold argsTakesEffect at h
  unfold parseArgsField
  cases hA : dlookup d "args" with
  | none => simp [hA]
  | some v =>
      rw [hA] at h
      cases v <;> simp [hA]
      case tuple xs =>
        simp at h
        simp [h]

/-- Successful pre-hook invocation: the dispatch fires and the result is
the parse of the returned value over the defaults. -/
theorem pre_syscall_fired (st : TinyHookState) (t : HookTable)
    (num a1 a2 a3 a4 a5 a6 a7 a8 : Int) (cb v : PyVal)
    (hen : st.enabled = true) (ht : st.preHooks = some t)
    (hcb : tableGet t num = some cb)
    (hcall : pyCall cb [num, a1, a2, a3, a4, a5, a6, a7, a8] = some v) :
    tinyhook_pre_syscall st num a1 a2 a3 a4 a5 a6 a7 a8 =
      ⟨true, some (parseHookResult (defaultPreResult a1 a2 a3 a4 a5 a6 a7 a8) v),
       []⟩ := by
  simp [tinyhook_pre_syscall, hen, ht, hcb, hcall]

/-- `tableGet` after `dictSet` at the same key finds the new callback. -/
theorem tableGet_dictSet (t : HookTable) (num : Int) (cb : PyVal) :
    tableGet (dictSet t num cb) num = some cb := by
  induction t with
  | nil => simp [dictSet, tableGet]
  | cons e rest ih =>
      obtain ⟨k, v⟩ := e
      by_cases hk : k = num
      · simp [dictSet, hk, tableGet]
      · simp [dictSet, hk, tableGet, ih]

/-- `dictSet` on a table holding at most one entry for the key leaves
exactly one entry for it. -/
theorem keyCount_dictSet (t : HookTable) (num : Int) (cb : PyVal)
    (h : keyCount t num ≤ 1) : keyCount (dictSet t num cb) num = 1 := by
  induction t with
  | nil => simp [dictSet, keyCount]
  | cons e rest ih =>
      obtain ⟨k, v⟩ := e
      by_cases hk : k = num
      · simp [keyCount, hk] at h
        simp [dictSet, hk, keyCount]
        omega
      · simp [keyCount, hk] at h
        simp [dictSet, hk, keyCount, ih h]

/-! ## Concrete fixtures used by counterexamples and witnesses -/

/-- A guest memory holding the bytes of `"hi\0"` at addresses 0..2, with
exactly those three addresses mapped. -/
def memHi : GuestMem :=
  { mapped := fun a => decide (a < 3)
    byte := fun a => if a = 0 then 104 else if a = 1 then 105 else 0
    bound := 16 }

/-- A concrete callable hook returning `{"ret": 1}`. -/
def cbOne : PyVal :=
  PyVal.callable fun _ => some (.dict [("ret", .int 1)])

/-- A concrete callable hook returning `{"ret": 2}`. -/
def cbTwo : PyVal :=
  PyVal.callable fun _ => some (.dict [("ret", .int 2)])

/-- An init run in which everything succeeds except the execution of the
user script (`PyRun_FileEx` returns NULL). -/
def envScriptFail : InitEnv :=
  { inittabOk := true
    runtimeStartOk := true
    preDictOk := true
    postDictOk := true
    importOk := true
    openOk := true
    runScriptOk := false }

/-! ## Claims -/

/-- C1: when the script fails to execute, `tinyhook_init` reports failure
and is not enabled, but — because `tinyhook_shutdown`'s
`g_tinyhook_enabled` guard is still false during init — both hook
dictionaries, the module reference, and the initialized Python runtime
are all left live, contradicting the claim that every partially acquired
resource is released. -/
theorem tinyhook_init_script_failure_leaks :
    (tinyhook_init envScriptFail).1 = -1 ∧
    (tinyhook_init envScriptFail).2.enabled = false ∧
    (tinyhook_init envScriptFail).2.preHooks = some [] ∧
    (tinyhook_init envScriptFail).2.postHooks = some [] ∧
    (tinyhook_init envScriptFail).2.module = some () ∧
    (tinyhook_init envScriptFail).2.pyInitialized = true :=
  ⟨rfl, rfl, rfl, rfl, rfl, rfl⟩

/-- C6: `py_read_memory` fails with InvalidArgument for every size ≤ 0,
fails with AddressError when the start address has no mapping, and
otherwise returns exactly `size` bytes copied from host-visible memory. -/
theorem read_memory_spec (m : GuestMem) (addr : Nat) (size : Int) :
    (size ≤ 0 → py_read_memory m addr size = .error .invalidArgument) ∧
    (0 < size → m.mapped addr = false →
        py_read_memory m addr size = .error .addressError) ∧
    (0 < size → m.mapped addr = true →
        ∃ bs, py_read_memory m addr size = .ok bs ∧
          bs.length = size.toNat ∧
          bs = (List.range size.toNat).map fun i => m.byte (addr + i)) := by
  refine ⟨fun h => ?_, fun h hm => ?_, fun h hm => ?_⟩
  · simp [py_read_memory, h]
  · simp [py_read_memory, not_le.mpr h, hm]
  · exact ⟨_, by simp [py_read_memory, not_le.mpr h, hm], by simp, rfl⟩

/-- C6 witness: concrete failures for sizes 0 and -1, a concrete
AddressError on the unmapped address 7, and a concrete successful read of
the two bytes of `"hi"`. -/
theorem read_memory_spec_witness :
    py_read_memory memHi 0 0 = .error .invalidArgument ∧
    py_read_memory memHi 0 (-1) = .error .invalidArgument ∧
    py_read_memory memHi 7 2 = .error .addressError ∧
    ∃ bs, py_read_memory memHi 0 2 = .ok bs ∧
      bs.length = (2 : Int).toNat ∧
      bs = (List.range (2 : Int).toNat).map fun i => memHi.byte (0 + i) :=
  ⟨(read_memory_spec memHi 0 0).1 (by decide),
   (read_memory_spec memHi 0 (-1)).1 (by decide),
   (read_memory_spec memHi 7 2).2.1 (by decide) (by decide),
   (read_memory_spec memHi 0 2).2.2 (by decide) (by decide)⟩

/-- C7: `py_read_string` fails with AddressError when the start address
is unmapped or the terminator scan is invalid, and otherwise returns the
text decoded from exactly the discovered byte length, terminator
excluded. -/
theorem read_string_spec (m : GuestMem) (addr : Nat) :
    (m.mapped addr = false → py_read_string m addr = .error .addressError) ∧
    (target_strlen m addr = Option.none →
        py_read_string m addr = .error .addressError) ∧
    (∀ len, m.mapped addr = true → target_strlen m addr = some len →
        py_read_string m addr = .ok (decodeString m addr len) ∧
        (decodeString m addr len).length = len) := by
  refine ⟨fun h => ?_, fun h => ?_, fun len hm hl => ⟨?_, ?_⟩⟩
  · simp [py_read_string, h]
  · unfold py_read_string
    split
    · simp [h]
    · rfl
  · simp [py_read_string, hm, hl]
  · simp [decodeString, String.length]

/-- C7 witness: a guest buffer holding `"hi\0"` yields the two-character
string `"hi"`. -/
theorem read_string_spec_witness :
    py_read_string memHi 0 = Except.ok "hi" ∧ ("hi" : String).length = 2 := by
  have h := (read_string_spec memHi 0).2.2 2 (by decide) (by decide)
  have hs : decodeString memHi 0 2 = "hi" := by decide
  exact ⟨h.1.trans (by rw [hs]), by decide⟩

/-- C8: `tinyhook_shutdown` is idempotent (a second call on an
already-shut-down state changes nothing, so there is no duplicate
release), and after it the subsystem reports disabled, the pre-dispatch
reports no hook fired, and the post-dispatch returns the original value
unchanged, with nothing logged. -/
theorem shutdown_idempotent_and_disables (st : TinyHookState)
    (num ret a1 a2 a3 a4 a5 a6 a7 a8 : Int) :
    tinyhook_shutdown (tinyhook_shutdown st) = tinyhook_shutdown st ∧
    tinyhook_enabled (tinyhook_shutdown st) = false ∧
    tinyhook_pre_syscall (tinyhook_shutdown st) num a1 a2 a3 a4 a5 a6 a7 a8 =
      ⟨false, Option.none, []⟩ ∧
    tinyhook_post_syscall (tinyhook_shutdown st) num ret a1 a2 a3 a4 a5 a6 a7 a8 =
      ⟨ret, []⟩ := by
  cases h : st.enabled <;>
    simp [tinyhook_shutdown, tinyhook_enabled, tinyhook_pre_syscall,
          tinyhook_post_syscall, h]

/-- C9: for either hook kind, registering a second callback for a syscall
number replaces the existing entry rather than duplicating it: the lookup
yields the new callback and the table holds exactly one entry for the
number. -/
theorem register_replaces (t : HookTable) (num : Int) (c1 c2 : PyVal)
    (hU : keyCount t num ≤ 1)
    (h1 : c1.isCallable = true) (h2 : c2.isCallable = true) :
    ∃ t1 t2,
      py_register_pre_hook t num c1 = .ok t1 ∧
      py_register_pre_hook t1 num c2 = .ok t2 ∧
      py_register_post_hook t num c1 = .ok t1 ∧
      py_register_post_hook t1 num c2 = .ok t2 ∧
      tableGet t2 num = some c2 ∧
      keyCount t2 num = 1 := by
  refine ⟨dictSet t num c1, dictSet (dictSet t num c1) num c2,
          ?_, ?_, ?_, ?_, ?_, ?_⟩
  · simp [py_register_pre_hook, h1]
  · simp [py_register_pre_hook, h2]
  · simp [py_register_post_hook, h1]
  · simp [py_register_post_hook, h2]
  · exact tableGet_dictSet _ _ _
  · exact keyCount_dictSet _ _ _ (le_of_eq (keyCount_dictSet t num c1 hU))

/-- C9 witness: two successive registrations for syscall 3 on the fresh
empty table. -/
theorem register_replaces_witness :
    ∃ t1 t2,
      py_register_pre_hook [] 3 cbOne = .ok t1 ∧
      py_register_pre_hook t1 3 cbTwo = .ok t2 ∧
      py_register_post_hook [] 3 cbOne = .ok t1 ∧
      py_register_post_hook t1 3 cbTwo = .ok t2 ∧
      tableGet t2 3 = some cbTwo ∧
      keyCount t2 3 = 1 :=
  register_replaces [] 3 cbOne cbTwo (by simp [keyCount]) rfl rfl

/-- C10: `py_write_memory` performs no size validation: zero-length data
at any mapped address succeeds with no error and leaves the guest memory
unchanged, while `py_read_memory` rejects size 0. -/
theorem write_memory_zero_length (m : GuestMem) (addr : Nat)
    (h : m.mapped addr = true) :
    py_write_memory m addr [] = .ok m ∧
    py_read_memory m addr 0 = .error .invalidArgument := by
  constructor
  · simp [py_write_memory, h, writeBytes]
  · simp [py_read_memory]

/-- C10 witness: the empty write at mapped address 0 of the concrete
memory. -/
theorem write_memory_zero_length_witness :
    py_write_memory memHi 0 [] = .ok memHi ∧
    py_read_memory memHi 0 0 = .error .invalidArgument :=
  write_memory_zero_length memHi 0 (by decide)

/-- A concrete pre-hook whose invocation raises. -/
def raisingHook : PyVal :=
  PyVal.callable fun _ => Option.none

/-- A concrete pre-hook returning `{"action": SKIP, "ret": 42}`. -/
def skipHook : PyVal :=
  PyVal.callable fun _ => some (.dict [("action", .int 1), ("ret", .int 42)])

/-- A concrete pre-hook returning an 8-tuple `args` whose first element is
an integer and whose other seven elements are strings. -/
def mixedArgsHook : PyVal :=
  PyVal.callable fun _ =>
    some (.dict [("args",
      .tuple [.int 99, .str "x", .str "x", .str "x",
              .str "x", .str "x", .str "x", .str "x"])])

/-- A concrete pre-hook returning an all-integer 8-tuple `args`. -/
def allIntArgsHook : PyVal :=
  PyVal.callable fun _ =>
    some (.dict [("args",
      .tuple [.int 11, .int 12, .int 13, .int 14,
              .int 15, .int 16, .int 17, .int 18])])

/-- A concrete pre-hook returning a 1-tuple `args`. -/
def shortArgsHook : PyVal :=
  PyVal.callable fun _ => some (.dict [("args", .tuple [.int 11])])

/-- A concrete post-hook returning the integer 100. -/
def postIntHook : PyVal :=
  PyVal.callable fun _ => some (.int 100)

/-- A concrete post-hook returning a string. -/
def postStrHook : PyVal :=
  PyVal.callable fun _ => some (.str "nope")

/-- A running state with a given pre-hook table and an empty post table. -/
def preState (t : HookTable) : TinyHookState :=
  { enabled := true
    preHooks := some t
    postHooks := some []
    module := some ()
    pyInitialized := true }

/-- A running state with a given post-hook table and an empty pre table. -/
def postState (t : HookTable) : TinyHookState :=
  { enabled := true
    preHooks := some []
    postHooks := some t
    module := some ()
    pyInitialized := true }

/-- C2 counterexample: a pre-hook returns `{"args": t}` where `t` is an
8-tuple that is not all integers (seven strings), yet the dispatched
result does not keep all eight original arguments — the integer element
replaces slot 0. -/
theorem pre_args_mixed_tuple_counterexample :
    (PyVal.str "x").isInt = false ∧
    (tinyhook_pre_syscall (preState [(5, mixedArgsHook)]) 5
        1 2 3 4 5 6 7 8).result =
      some { action := .continueAction
             args := [99, 2, 3, 4, 5, 6, 7, 8]
             ret := 0 } ∧
    [99, 2, 3, 4, 5, 6, 7, 8] ≠ [1, 2, 3, 4, 5, 6, 7, 8] :=
  ⟨rfl, rfl, by decide⟩

/-- C2 (amended): the `args` field of a returned dict takes effect
element-wise when it is an 8-element tuple — each integer element
replaces the corresponding argument, each non-integer element leaves that
slot's original (`pickArg`); when `args` is absent, not a tuple, or a
tuple of length other than 8, all eight original arguments are left
unchanged. -/
theorem pre_args_schema (st : TinyHookState) (t : HookTable)
    (num a1 a2 a3 a4 a5 a6 a7 a8 : Int) (cb : PyVal)
    (d : List (String × PyVal))
    (hen : st.enabled = true) (ht : st.preHooks = some t)
    (hcb : tableGet t num = some cb)
    (hcall : pyCall cb [num, a1, a2, a3, a4, a5, a6, a7, a8] =
      some (.dict d)) :
    (∀ xs, dlookup d "args" = some (.tuple xs) → xs.length = 8 →
        ∃ r, (tinyhook_pre_syscall st num a1 a2 a3 a4 a5 a6 a7 a8).result =
            some r ∧
          r.args = List.zipWith pickArg [a1, a2, a3, a4, a5, a6, a7, a8] xs) ∧
    (argsTakesEffect d = false →
        ∃ r, (tinyhook_pre_syscall st num a1 a2 a3 a4 a5 a6 a7 a8).result =
            some r ∧
          r.args = [a1, a2, a3, a4, a5, a6, a7, a8]) := by
  have hres := pre_syscall_fired st t num a1 a2 a3 a4 a5 a6 a7 a8 cb
    (.dict d) hen ht hcb hcall
  constructor
  · intro xs hxs h8
    refine ⟨_, by rw [hres], ?_⟩
    rw [parseHookResult, parseRetField_args,
        parseArgsField_effective _ _ _ hxs h8, parseActionField_args]
    rfl
  · intro hno
    refine ⟨_, by rw [hres], ?_⟩
    rw [parseHookResult, parseRetField_args,
        parseArgsField_ineffective _ _ hno, parseActionField_args]
    rfl

/-- C2 witness: an all-integer 8-tuple replaces all eight arguments, and
a 1-tuple leaves the originals. -/
theorem pre_args_schema_witness :
    (∃ r, (tinyhook_pre_syscall (preState [(2, allIntArgsHook)]) 2
          1 2 3 4 5 6 7 8).result = some r ∧
       r.args = List.zipWith pickArg [1, 2, 3, 4, 5, 6, 7, 8]
         [.int 11, .int 12, .int 13, .int 14,
          .int 15, .int 16, .int 17, .int 18]) ∧
    (∃ r, (tinyhook_pre_syscall (preState [(3, shortArgsHook)]) 3
          1 2 3 4 5 6 7 8).result = some r ∧
       r.args = [1, 2, 3, 4, 5, 6, 7, 8]) :=
  ⟨(pre_args_schema (preState [(2, allIntArgsHook)]) [(2, allIntArgsHook)]
      2 1 2 3 4 5 6 7 8 allIntArgsHook _ rfl rfl rfl rfl).1 _ rfl rfl,
   (pre_args_schema (preState [(3, shortArgsHook)]) [(3, shortArgsHook)]
      3 1 2 3 4 5 6 7 8 shortArgsHook _ rfl rfl rfl rfl).2 rfl⟩

/-- C3: a registered pre-hook whose invocation raises logs a diagnostic
with the syscall number and behaves as if no hook were registered: the
dispatch reports no hook fired, the result carries CONTINUE, the eight
original arguments, and ret 0, and the dispatch returns normally. -/
theorem pre_hook_raise_no_hook (st : TinyHookState) (t : HookTable)
    (num a1 a2 a3 a4 a5 a6 a7 a8 : Int) (cb : PyVal)
    (hen : st.enabled = true) (ht : st.preHooks = some t)
    (hcb : tableGet t num = some cb)
    (hfail : pyCall cb [num, a1, a2, a3, a4, a5, a6, a7, a8] = Option.none) :
    tinyhook_pre_syscall st num a1 a2 a3 a4 a5 a6 a7 a8 =
      ⟨false, some { action := .continueAction
                     args := [a1, a2, a3, a4, a5, a6, a7, a8]
                     ret := 0 }, [num]⟩ := by
  simp [tinyhook_pre_syscall, hen, ht, hcb, hfail, defaultPreResult]

/-- C3 witness: the concrete raising hook registered for syscall 9. -/
theorem pre_hook_raise_no_hook_witness :
    tinyhook_pre_syscall (preState [(9, raisingHook)]) 9 1 2 3 4 5 6 7 8 =
      ⟨false, some { action := .continueAction
                     args := [1, 2, 3, 4, 5, 6, 7, 8]
                     ret := 0 }, [9]⟩ :=
  pre_hook_raise_no_hook (preState [(9, raisingHook)]) [(9, raisingHook)]
    9 1 2 3 4 5 6 7 8 raisingHook rfl rfl rfl rfl

/-- C4: a pre-hook returning `{"action": SKIP, "ret": 42}` fires and
yields SKIP, ret 42, and the original eight arguments. -/
theorem pre_hook_skip_ret42 (st : TinyHookState) (t : HookTable)
    (num a1 a2 a3 a4 a5 a6 a7 a8 : Int) (cb : PyVal)
    (hen : st.enabled = true) (ht : st.preHooks = some t)
    (hcb : tableGet t num = some cb)
    (hcall : pyCall cb [num, a1, a2, a3, a4, a5, a6, a7, a8] =
      some (.dict [("action", .int 1), ("ret", .int 42)])) :
    tinyhook_pre_syscall st num a1 a2 a3 a4 a5 a6 a7 a8 =
      ⟨true, some { action := .skip
                    args := [a1, a2, a3, a4, a5, a6, a7, a8]
                    ret := 42 }, []⟩ := by
  rw [pre_syscall_fired st t num a1 a2 a3 a4 a5 a6 a7 a8 cb _ hen ht hcb hcall]
  rfl

/-- C4 witness: the concrete skip hook registered for syscall 7. -/
theorem pre_hook_skip_ret42_witness :
    tinyhook_pre_syscall (preState [(7, skipHook)]) 7 1 2 3 4 5 6 7 8 =
      ⟨true, some { action := .skip
                    args := [1, 2, 3, 4, 5, 6, 7, 8]
                    ret := 42 }, []⟩ :=
  pre_hook_skip_ret42 (preState [(7, skipHook)]) [(7, skipHook)]
    7 1 2 3 4 5 6 7 8 skipHook rfl rfl rfl rfl

/-- C5: `tinyhook_post_syscall` returns the value produced by the
post-hook exactly when that value is a plain integer; with no hook
registered, on invocation failure (which logs the syscall number), or on
any non-integer returned value, it returns the original value
unchanged. -/
theorem post_hook_spec (st : TinyHookState) (t : HookTable)
    (num ret a1 a2 a3 a4 a5 a6 a7 a8 : Int)
    (hen : st.enabled = true) (ht : st.postHooks = some t) :
    (tableGet t num = Option.none →
        tinyhook_post_syscall st num ret a1 a2 a3 a4 a5 a6 a7 a8 =
          ⟨ret, []⟩) ∧
    (∀ cb, tableGet t num = some cb →
        pyCall cb [num, ret, a1, a2, a3, a4, a5, a6, a7, a8] = Option.none →
        tinyhook_post_syscall st num ret a1 a2 a3 a4 a5 a6 a7 a8 =
          ⟨ret, [num]⟩) ∧
    (∀ cb n, tableGet t num = some cb →
        pyCall cb [num, ret, a1, a2, a3, a4, a5, a6, a7, a8] =
          some (.int n) →
        tinyhook_post_syscall st num ret a1 a2 a3 a4 a5 a6 a7 a8 =
          ⟨n, []⟩) ∧
    (∀ cb v, tableGet t num = some cb →
        pyCall cb [num, ret, a1, a2, a3, a4, a5, a6, a7, a8] = some v →
        v.isInt = false →
        tinyhook_post_syscall st num ret a1 a2 a3 a4 a5 a6 a7 a8 =
          ⟨ret, []⟩) := by
  refine ⟨fun h => ?_, fun cb hcb hfail => ?_, fun cb n hcb hv => ?_,
          fun cb v hcb hv hni => ?_⟩
  · simp [tinyhook_post_syscall, hen, ht, h]
  · simp [tinyhook_post_syscall, hen, ht, hcb, hfail]
  · simp [tinyhook_post_syscall, hen, ht, hcb, hv]
  · cases v <;> simp_all [tinyhook_post_syscall, PyVal.isInt, hen, ht, hcb, hv]

/-- The post-hook table used by the C5 witness. -/
def postTableW : HookTable :=
  [(4, postIntHook), (5, postStrHook), (6, raisingHook)]

/-- C5 witness: all four cases on a concrete table — no hook for syscall
99, the raising hook for 6 (logged), the integer-returning hook for 4,
and the string-returning hook for 5. -/
theorem post_hook_spec_witness :
    tinyhook_post_syscall (postState postTableW) 99 55 1 2 3 4 5 6 7 8 =
      ⟨55, []⟩ ∧
    tinyhook_post_syscall (postState postTableW) 6 55 1 2 3 4 5 6 7 8 =
      ⟨55, [6]⟩ ∧
    tinyhook_post_syscall (postState postTableW) 4 55 1 2 3 4 5 6 7 8 =
      ⟨100, []⟩ ∧
    tinyhook_post_syscall (postState postTableW) 5 55 1 2 3 4 5 6 7 8 =
      ⟨55, []⟩ :=
  ⟨(post_hook_spec (postState postTableW) postTableW 99 55 1 2 3 4 5 6 7 8
      rfl rfl).1 rfl,
   (post_hook_spec (postState postTableW) postTableW 6 55 1 2 3 4 5 6 7 8
      rfl rfl).2.1 raisingHook rfl rfl,
   (post_hook_spec (postState postTableW) postTableW 4 55 1 2 3 4 5 6 7 8
      rfl rfl).2.2.1 postIntHook 100 rfl rfl,
   (post_hook_spec (postState postTableW) postTableW 5 55 1 2 3 4 5 6 7 8
      rfl rfl).2.2.2 postStrHook (.str "nope") rfl rfl rfl⟩
